import Mathlib

/-!
Shallow embedding of the scene-generator application core, translated from
the TypeScript sources:

* mode selection (src/utils/determineLogicMode.ts),
* the session-state handlers of the application controller (App.tsx):
  image upload with aspect detection, the category toggles, the smart-layout
  and story-mode toggles, reset,
* the 3x3 grid geometry helpers (cropCellFromGrid, updateGridWithImage),
* the generation client (geminiApi.ts): the ordered model-fallback loop of
  the legacy direct-API variant, the single-call proxy variant and its
  compressImage helper,
* the Vidu video task polling loop (viduApi.ts).

Numeric image data is modelled over an abstract pixel-buffer surface:
an image is its dimensions together with a pixel-colour function, and
drawImage writes exactly the destination rectangle. JavaScript number
arithmetic is modelled exactly over the rationals.
-/

/-- The five generation strategies (LogicMode in types/sceneGenerator.ts). -/
inductive LogicMode
  | LINEAR
  | MATRIX
  | DYNAMIC
  | CINEMATIC
  | STORY
deriving DecidableEq

/-- The three independently toggleable variation categories. -/
structure CategoryFlags where
  angle : Bool
  shot : Bool
  expression : Bool
deriving DecidableEq

/-- Count of selected flags: Object.values(categories).filter(Boolean).length. -/
def selectedCount (c : CategoryFlags) : Nat :=
  (if c.angle then 1 else 0) + (if c.shot then 1 else 0) +
    (if c.expression then 1 else 0)

/-- Translation of determineLogicMode (src/utils/determineLogicMode.ts):
switch on the number of selected categories, defaulting to LINEAR. -/
def determineLogicMode (c : CategoryFlags) : LogicMode :=
  match selectedCount c with
  | 1 => .LINEAR
  | 2 => .MATRIX
  | 3 => .DYNAMIC
  | _ => .LINEAR

/-- An uploaded file: its byte size, its data-URL encoding, and the natural
pixel dimensions the browser reports once the image is decoded. -/
structure UploadFile where
  size : Nat
  dataUrl : String
  naturalWidth : Nat
  naturalHeight : Nat
deriving DecidableEq

/-- The projection of SceneGeneratorState (types/sceneGenerator.ts) onto the
fields read or written by the handlers modelled here. -/
structure SessionState where
  referenceImage : Option UploadFile
  referenceImagePreview : Option String
  selectedCategories : CategoryFlags
  logicMode : LogicMode
  smartLayoutEnabled : Bool
  storyModeEnabled : Bool
  gridAspectLabel : String
deriving DecidableEq

/-- The all-false category selection. -/
def noCategories : CategoryFlags :=
  { angle := false, shot := false, expression := false }

/-- The initialState constant of types/sceneGenerator.ts, projected. -/
def initialSession : SessionState :=
  { referenceImage := none
    referenceImagePreview := none
    selectedCategories := noCategories
    logicMode := .LINEAR
    smartLayoutEnabled := false
    storyModeEnabled := false
    gridAspectLabel := "1:1" }

/-- Aspect-label detection inlined in handleImageUpload (App.tsx): the
width/height quotient is compared against the common labels within a 0.05
tolerance, in source order; otherwise the gcd-reduced integer pair is used. -/
def detectAspectLabel (w h : Nat) : String :=
  let divisor := Nat.gcd w h
  let base := toString (w / divisor) ++ ":" ++ toString (h / divisor)
  let r : ℚ := (w : ℚ) / (h : ℚ)
  if |r - 16/9| < 1/20 then "16:9"
  else if |r - 9/16| < 1/20 then "9:16"
  else if |r - 4/3| < 1/20 then "4:3"
  else if |r - 3/4| < 1/20 then "3:4"
  else if |r - 1| < 1/20 then "1:1"
  else base

/-- The fixed upload size ceiling of handleImageUpload: 10 * 1024 * 1024. -/
def MAX_UPLOAD_BYTES : Nat := 10 * 1024 * 1024

/-- Translation of handleImageUpload (App.tsx): files over the ceiling are
rejected with an alert and the state is returned unchanged; otherwise the
reference image, its preview data URL and the detected aspect label are set.
The second component is the alert message, if one was shown. -/
def handleImageUpload (s : SessionState) (f : UploadFile) :
    SessionState × Option String :=
  if f.size > MAX_UPLOAD_BYTES then
    (s, some "Image too large (>10MB)")
  else
    ({ s with
        referenceImage := some f
        referenceImagePreview := some f.dataUrl
        gridAspectLabel := detectAspectLabel f.naturalWidth f.naturalHeight },
      none)

/-- Names of the three category toggle buttons. -/
inductive CatName
  | angle
  | shot
  | expression
deriving DecidableEq

/-- Flip one category flag, keeping the others. -/
def flipCategory (c : CategoryFlags) : CatName → CategoryFlags
  | .angle => { c with angle := !c.angle }
  | .shot => { c with shot := !c.shot }
  | .expression => { c with expression := !c.expression }

/-- Translation of toggleCategory (App.tsx): a no-op while either special
mode is enabled; otherwise flips the flag and recomputes the logic mode. -/
def toggleCategory (s : SessionState) (cat : CatName) : SessionState :=
  if s.smartLayoutEnabled || s.storyModeEnabled then s
  else
    let newCats := flipCategory s.selectedCategories cat
    { s with
        selectedCategories := newCats
        logicMode := determineLogicMode newCats }

/-- Translation of toggleSmartLayout (App.tsx): turning it off restores the
category-driven mode; turning it on clears the categories, disables story
mode and sets CINEMATIC. -/
def toggleSmartLayout (s : SessionState) : SessionState :=
  if s.smartLayoutEnabled then
    { s with
        smartLayoutEnabled := false
        logicMode := determineLogicMode s.selectedCategories }
  else
    { s with
        smartLayoutEnabled := true
        storyModeEnabled := false
        selectedCategories := noCategories
        logicMode := .CINEMATIC }

/-- Translation of toggleStoryMode (App.tsx): symmetric to the smart-layout
toggle, with STORY in place of CINEMATIC. -/
def toggleStoryMode (s : SessionState) : SessionState :=
  if s.storyModeEnabled then
    { s with
        storyModeEnabled := false
        logicMode := determineLogicMode s.selectedCategories }
  else
    { s with
        storyModeEnabled := true
        smartLayoutEnabled := false
        selectedCategories := noCategories
        logicMode := .STORY }

/-- The user actions of the application controller that touch the modelled
state fields. -/
inductive UserAction
  | toggleCat (c : CatName)
  | smartLayout
  | storyMode
  | upload (f : UploadFile)
  | reset
deriving DecidableEq

/-- One controller step: dispatch a user action to its handler (resetAll
replaces the whole state with initialState). -/
def sessionStep (s : SessionState) : UserAction → SessionState
  | .toggleCat c => toggleCategory s c
  | .smartLayout => toggleSmartLayout s
  | .storyMode => toggleStoryMode s
  | .upload f => (handleImageUpload s f).1
  | .reset => initialSession

/-- States reachable from the initial session state by user actions. -/
inductive ReachableState : SessionState → Prop
  | init : ReachableState initialSession
  | step (s : SessionState) (a : UserAction) :
      ReachableState s → ReachableState (sessionStep s a)

/-- The mode-exclusivity invariant: the two special modes are never both on;
an enabled special mode pins the logic mode and empties the category flags;
with both special modes off, the logic mode is category-driven. -/
def ModeInvariant (s : SessionState) : Prop :=
  (s.smartLayoutEnabled = false ∨ s.storyModeEnabled = false)
  ∧ (s.smartLayoutEnabled = true →
      s.logicMode = .CINEMATIC ∧ s.selectedCategories = noCategories)
  ∧ (s.storyModeEnabled = true →
      s.logicMode = .STORY ∧ s.selectedCategories = noCategories)
  ∧ (s.smartLayoutEnabled = false → s.storyModeEnabled = false →
      s.logicMode = determineLogicMode s.selectedCategories)

/-- One creation entry in a Vidu poll response. -/
structure ViduCreation where
  url : Option String
  output_url : Option String
deriving DecidableEq

/-- The fields of a Vidu poll response body that pollForVideo inspects.
Absent JSON fields are none. -/
structure ViduData where
  state : Option String
  status : Option String
  url : Option String
  output_url : Option String
  creations : List ViduCreation
  video_url : Option String
deriving DecidableEq

/-- JavaScript a || b over possibly-missing strings: a missing or empty
string is falsy and falls through to the right operand. -/
def jsOr (a b : Option String) : Option String :=
  match a with
  | some s => if s = "" then b else some s
  | none => b

/-- JavaScript truthiness of a possibly-missing string. -/
def truthy : Option String → Bool
  | some s => s != ""
  | none => false

/-- Result-URL extraction on a success response (pollForVideo, viduApi.ts):
url or output_url first, else the first creation's url or output_url, else
video_url; none when every shape check fails (the loop then continues). -/
def extractResultUrl (d : ViduData) : Option String :=
  let r1 := jsOr d.url d.output_url
  let r2 :=
    if truthy r1 then r1
    else
      match d.creations with
      | c :: _ => jsOr c.url c.output_url
      | [] => r1
  let r3 := if truthy r2 then r2 else d.video_url
  if truthy r3 then r3 else none

/-- What one status request observes: the fetch (or body parse) threw, the
response had a non-ok HTTP status, or a parsed body arrived. -/
inductive FetchResult
  | netError
  | notOk
  | ok (data : ViduData)
deriving DecidableEq

/-- The exceptions that can be raised inside the try-block of one polling
iteration: a network failure, or the Error thrown on state failed carrying
the raw response. -/
inductive PollException
  | network
  | generationFailed (raw : ViduData)
deriving DecidableEq

/-- How one polling iteration ends when no exception escapes: return a URL
or fall through to the next iteration. -/
inductive LoopStep
  | ret (url : String)
  | cont
deriving DecidableEq

/-- The try-block of one pollForVideo iteration: a network failure raises; a
non-ok response continues; on a body, state success with an extractable URL
returns it, state failed throws the generation-failed Error, and any other
state (processing, queueing, or success without a URL) continues. -/
def pollTryBlock : FetchResult → Except PollException LoopStep
  | .netError => .error .network
  | .notOk => .ok .cont
  | .ok d =>
      let st := jsOr d.state d.status
      if st = some "success" then
        match extractResultUrl d with
        | some u => .ok (.ret u)
        | none => .ok .cont
      else if st = some "failed" then .error (.generationFailed d)
      else .ok .cont

/-- The catch wrapped around the try-block logs a warning and continues the
loop on any exception, the generation-failed Error included. -/
def pollAttempt (r : FetchResult) : LoopStep :=
  match pollTryBlock r with
  | .ok s => s
  | .error _ => .cont

/-- The observable outcomes of pollForVideo: a result URL, or the timeout
error after the attempt budget is exhausted. -/
inductive PollResult
  | success (url : String)
  | timeoutError
deriving DecidableEq

/-- The while loop of pollForVideo. attempts counts the attempts already
made and fuel the attempts still allowed (maxAttempts - attempts, so the
loop guard attempts < maxAttempts is fuel > 0); each iteration increments
the counter and then queries the endpoint for that attempt number. Returns
the outcome together with the number of attempts made. -/
def pollLoop (responses : Nat → FetchResult) (attempts fuel : Nat) :
    PollResult × Nat :=
  match fuel with
  | 0 => (.timeoutError, attempts)
  | f + 1 =>
      let a := attempts + 1
      match pollAttempt (responses a) with
      | .ret u => (.success u, a)
      | .cont => pollLoop responses a f

/-- The fixed attempt budget of pollForVideo. -/
def maxAttempts : Nat := 60

/-- Translation of pollForVideo (viduApi.ts), parameterized by the sequence
of per-attempt endpoint observations. -/
def pollForVideo (responses : Nat → FetchResult) : PollResult × Nat :=
  pollLoop responses 0 maxAttempts

/-- A response body whose state is failed and which carries nothing else. -/
def failedData : ViduData :=
  { state := some "failed", status := none, url := none, output_url := none,
    creations := [], video_url := none }

/-- A response body still processing. -/
def processingData : ViduData :=
  { state := some "processing", status := none, url := none,
    output_url := none, creations := [], video_url := none }

/-- A success response body carrying a direct result URL. -/
def successData (u : String) : ViduData :=
  { state := some "success", status := none, url := some u,
    output_url := none, creations := [], video_url := none }

/-- A status endpoint that reports processing on the first three attempts
and success with a fixed URL from the fourth attempt on. -/
def mockThreeThenSuccess : Nat → FetchResult := fun n =>
  if n ≤ 3 then .ok processingData
  else .ok (successData "https://video.example/result.mp4")

/-- The ordered fallback list of backend model identifiers used by
generatePreview and generateFinal in the legacy direct-API client. -/
def modelsToTry : List String :=
  ["gemini-3-pro-image-preview", "gemini-2.5-flash-image"]

/-- The for-loop over the model list shared by generatePreview and
generateFinal (legacy geminiApi variant): try each identifier in order,
return the first success, remember the last error; when the list is
exhausted, throw the last error (or the all-models-failed message when no
model was ever tried). backend gives each identifier's outcome. -/
def tryModels (backend : String → Except String String) :
    List String → Option String → Except String String
  | [], lastErr => .error (lastErr.getD "All models failed")
  | m :: ms, _lastErr =>
      match backend m with
      | .ok u => .ok u
      | .error e => tryModels backend ms (some e)

/-- The model identifiers actually attempted by the fallback loop: every
identifier up to and including the first success. -/
def attemptedModels (backend : String → Except String String) :
    List String → List String
  | [] => []
  | m :: ms =>
      match backend m with
      | .ok _ => [m]
      | .error _ => m :: attemptedModels backend ms

/-- generatePreview's fallback over the declared model list. -/
def generatePreviewModels (backend : String → Except String String) :
    Except String String :=
  tryModels backend modelsToTry none

/-- generateFinal's fallback over the same declared model list. -/
def generateFinalModels (backend : String → Except String String) :
    Except String String :=
  tryModels backend modelsToTry none

/-- The fields of one gemini-proxy response that callProxy inspects. -/
structure ProxyResponse where
  ok : Bool
  status : Nat
  success : Bool
  imageUrl : String
  error : Option String
  creditBalance : Option Nat
deriving DecidableEq

/-- Translation of callProxy (geminiApi.ts): a missing token fails up front;
a non-ok or non-success response maps 401 and 402 to dedicated messages and
otherwise surfaces the response's error field; on success the image URL is
returned. -/
def callProxy (token : String) (resp : ProxyResponse) : Except String String :=
  if token = "" then
    .error "인증 토큰이 없습니다. AIFI 에디터에서 Scene Generator를 열어주세요."
  else if resp.ok = false ∨ resp.success = false then
    if resp.status = 401 then .error "인증 만료. AIFI 에디터에서 다시 열어주세요."
    else if resp.status = 402 then
      .error ("크레딧 부족 (잔액: " ++ toString (resp.creditBalance.getD 0) ++ ")")
    else .error (resp.error.getD "API 호출 실패")
  else .ok resp.imageUrl

/-- Translation of modifyImage (geminiApi.ts): exactly one callProxy
invocation and no model-fallback loop. proxy gives the response to the n-th
backend call; the pair's second component counts the backend calls made. -/
def modifyImageProxy (token : String) (proxy : Nat → ProxyResponse) :
    Except String String × Nat :=
  (callProxy token (proxy 0), 1)

/-- A proxy backend whose n-th call fails with a distinct error message. -/
def failingProxyOracle : Nat → ProxyResponse := fun n =>
  { ok := false, status := 500, success := false, imageUrl := "",
    error := some ("backend error " ++ toString n), creditBalance := none }

/-- The maximum image dimension compressImage scales down to. -/
def MAX_IMAGE_DIMENSION : Nat := 1024

/-- The starting JPEG quality of compressImage. -/
def JPEG_QUALITY : ℚ := 7/10

/-- The quality floor of compressImage's reduction loop. -/
def QUALITY_FLOOR : ℚ := 3/10

/-- The per-image byte ceiling of compressImage. -/
def MAX_SINGLE_IMAGE_BYTES : Nat := 1500000

/-- The resize step of compressImage (geminiApi.ts): when either side
exceeds the maximum dimension, both sides are scaled by
maxDimension / longer side and rounded; otherwise the dimensions pass
through unchanged. -/
def resizeDims (w h : Nat) : Nat × Nat :=
  if MAX_IMAGE_DIMENSION < w ∨ MAX_IMAGE_DIMENSION < h then
    let scale : ℚ := (MAX_IMAGE_DIMENSION : ℚ) / (max w h : ℚ)
    ((round ((w : ℚ) * scale)).toNat, (round ((h : ℚ) * scale)).toNat)
  else (w, h)

/-- The encoded-size guard of the quality loop:
result.length > MAX_SINGLE_IMAGE_BYTES * 1.37 and quality > 0.3. -/
def qualityGuard (size : Nat) (q : ℚ) : Prop :=
  (MAX_SINGLE_IMAGE_BYTES : ℚ) * (137/100) < (size : ℚ) ∧ QUALITY_FLOOR < q

instance (size : Nat) (q : ℚ) : Decidable (qualityGuard size q) := by
  unfold qualityGuard
  infer_instance

/-- The quality-reduction while loop of compressImage: while the encoded
size exceeds the ceiling and the quality is above the floor, lower the
quality by 0.1 and re-encode. encodeSize gives the encoded byte length at a
given quality; fuel bounds the iteration and four steps reach the floor
from the starting quality. -/
def qualityLoop (encodeSize : ℚ → Nat) (q : ℚ) (size fuel : Nat) : ℚ × Nat :=
  match fuel with
  | 0 => (q, size)
  | f + 1 =>
      if qualityGuard size q then
        qualityLoop encodeSize (q - 1/10) (encodeSize (q - 1/10)) f
      else (q, size)

/-- The quality loop started the way compressImage starts it: encode at the
fixed initial quality, then reduce. -/
def compressQuality (encodeSize : ℚ → Nat) : ℚ × Nat :=
  qualityLoop encodeSize JPEG_QUALITY (encodeSize JPEG_QUALITY) 4

/-- An image over the abstract pixel-buffer surface: dimensions and a
colour for every integer pixel coordinate. -/
structure Img where
  width : Nat
  height : Nat
  pix : Nat → Nat → Nat

/-- One cell's width: imageWidth / 3, exact. -/
def cellW (g : Img) : ℚ := (g.width : ℚ) / 3

/-- One cell's height: imageHeight / 3, exact. -/
def cellH (g : Img) : ℚ := (g.height : ℚ) / 3

/-- Row of a cell index: Math.floor(cellIndex / 3). -/
def cellRow (idx : Nat) : Nat := idx / 3

/-- Column of a cell index: cellIndex % 3. -/
def cellCol (idx : Nat) : Nat := idx % 3

/-- Whether the integer pixel (x, y) lies in the sub-rectangle of cell idx:
col * w/3 ≤ x < (col + 1) * w/3 and row * h/3 ≤ y < (row + 1) * h/3, the
rectangle both updateGridWithImage and cropCellFromGrid compute. -/
def inCell (g : Img) (idx x y : Nat) : Bool :=
  decide ((cellCol idx : ℚ) * cellW g ≤ (x : ℚ))
  && decide ((x : ℚ) < ((cellCol idx : ℚ) + 1) * cellW g)
  && decide ((cellRow idx : ℚ) * cellH g ≤ (y : ℚ))
  && decide ((y : ℚ) < ((cellRow idx : ℚ) + 1) * cellH g)

/-- Destination-to-source sampling of drawImage when src fills the
rectangle with origin (x0, y0) and size (w, h): the linear map back to
source coordinates, truncated to integer pixels. -/
def sampleScaled (src : Img) (x0 y0 w h : ℚ) (x y : Nat) : Nat :=
  src.pix (Int.toNat ⌊(((x : ℚ) - x0) / w) * (src.width : ℚ)⌋)
    (Int.toNat ⌊(((y : ℚ) - y0) / h) * (src.height : ℚ)⌋)

/-- Translation of updateGridWithImage (App.tsx): copy the grid onto a
canvas of the same size, then draw newImage scaled into the rectangle of
cellIndex; pixels outside that rectangle keep the grid's colour. -/
def updateGridWithImage (grid : Img) (cellIndex : Nat) (newImage : Img) :
    Img :=
  { width := grid.width
    height := grid.height
    pix := fun x y =>
      if inCell grid cellIndex x y then
        sampleScaled newImage ((cellCol cellIndex : ℚ) * cellW grid)
          ((cellRow cellIndex : ℚ) * cellH grid) (cellW grid) (cellH grid) x y
      else grid.pix x y }

/-- Translation of cropCellFromGrid (App.tsx): a canvas of one cell's size
whose pixels are copied unscaled from the cell's sub-rectangle of the grid
(source offset col * w/3, row * h/3). -/
def cropCellFromGrid (grid : Img) (cellIndex : Nat) : Img :=
  { width := Int.toNat ⌊cellW grid⌋
    height := Int.toNat ⌊cellH grid⌋
    pix := fun x y =>
      grid.pix (Int.toNat ⌊(cellCol cellIndex : ℚ) * cellW grid + (x : ℚ)⌋)
        (Int.toNat ⌊(cellRow cellIndex : ℚ) * cellH grid + (y : ℚ)⌋) }

/-- A concrete 6 by 6 grid image with pairwise distinct pixel colours. -/
def gridSix : Img := { width := 6, height := 6, pix := fun x y => 10 * x + y }

/-- A concrete 2 by 2 patch image of constant colour. -/
def patchTwo : Img := { width := 2, height := 2, pix := fun _ _ => 99 }

/-- A concrete upload above the 10 MB ceiling. -/
def bigFile : UploadFile :=
  { size := 10 * 1024 * 1024 + 1, dataUrl := "data:big",
    naturalWidth := 100, naturalHeight := 100 }

/-- A concrete upload below the ceiling, 1920 by 1080. -/
def smallFile : UploadFile :=
  { size := 1024, dataUrl := "data:small",
    naturalWidth := 1920, naturalHeight := 1080 }

/-- A backend whose first declared model succeeds. -/
def backendFirstOk : String → Except String String := fun m =>
  if m = "gemini-3-pro-image-preview" then .ok "img-first" else .error "unused"

/-- A backend whose first declared model fails and whose second succeeds. -/
def backendSecondOk : String → Except String String := fun m =>
  if m = "gemini-3-pro-image-preview" then .error "first failed"
  else .ok "img-second"

/-- A backend on which every declared model fails, with distinct errors. -/
def backendBothFail : String → Except String String := fun m =>
  if m = "gemini-3-pro-image-preview" then .error "first failed"
  else .error "second failed"

/-! Helper lemmas. -/

/-- The pure mode selector only ever produces the three category modes. -/
theorem determineLogicMode_mem (c : CategoryFlags) :
    determineLogicMode c = .LINEAR ∨ determineLogicMode c = .MATRIX ∨
      determineLogicMode c = .DYNAMIC := by
  rcases c with ⟨a, s, e⟩
  cases a <;> cases s <;> cases e <;> decide

/-- The polling loop makes at most fuel further attempts. -/
theorem pollLoop_count_le (responses : Nat → FetchResult)
    (attempts fuel : Nat) :
    (pollLoop responses attempts fuel).2 ≤ attempts + fuel := by
  induction fuel generalizing attempts with
  | zero => simp [pollLoop]
  | succ f ih =>
      simp only [pollLoop]
      cases h : pollAttempt (responses (attempts + 1)) with
      | ret u => simp only [h]; omega
      | cont =>
          simp only [h]
          have := ih (attempts + 1)
          omega

/-- When every attempt falls through, the loop burns its whole fuel and
times out. -/
theorem pollLoop_all_cont (responses : Nat → FetchResult)
    (h : ∀ n, pollAttempt (responses n) = .cont) (attempts fuel : Nat) :
    pollLoop responses attempts fuel = (.timeoutError, attempts + fuel) := by
  induction fuel generalizing attempts with
  | zero => simp [pollLoop]
  | succ f ih =>
      simp only [pollLoop, h (attempts + 1)]
      rw [ih (attempts + 1)]
      have : attempts + 1 + f = attempts + (f + 1) := by omega
      rw [this]

/-- The mode-exclusivity invariant is preserved by every controller step. -/
theorem modeInvariant_step (s : SessionState) (a : UserAction)
    (h : ModeInvariant s) : ModeInvariant (sessionStep s a) := by
  obtain ⟨h1, h2, h3, h4⟩ := h
  cases a with
  | toggleCat c =>
      show ModeInvariant (toggleCategory s c)
      unfold toggleCategory
      cases hsm : s.smartLayoutEnabled with
      | true =>
          simp only [hsm, Bool.true_or, if_true]
          exact ⟨h1, h2, h3, h4⟩
      | false =>
          cases hst : s.storyModeEnabled with
          | true =>
              simp only [hsm, hst, Bool.or_true, if_true]
              exact ⟨h1, h2, h3, h4⟩
          | false =>
              simp only [hsm, hst, Bool.or_self, Bool.false_eq_true,
                if_false]
              exact ⟨Or.inl rfl, fun hx => Bool.noConfusion hx,
                fun hx => Bool.noConfusion hx, fun _ _ => rfl⟩
  | smartLayout =>
      show ModeInvariant (toggleSmartLayout s)
      unfold toggleSmartLayout
      cases hsm : s.smartLayoutEnabled with
      | true =>
          simp only [if_true]
          refine ⟨Or.inl rfl, fun hx => Bool.noConfusion hx,
            fun hx => ?_, fun _ _ => rfl⟩
          rcases h1 with h1 | h1
          · rw [hsm] at h1; exact Bool.noConfusion h1
          · exact absurd hx (by simp [h1])
      | false =>
          simp only [Bool.false_eq_true, if_false]
          exact ⟨Or.inr rfl, fun _ => ⟨rfl, rfl⟩,
            fun hx => Bool.noConfusion hx,
            fun hx _ => Bool.noConfusion hx⟩
  | storyMode =>
      show ModeInvariant (toggleStoryMode s)
      unfold toggleStoryMode
      cases hst : s.storyModeEnabled with
      | true =>
          simp only [if_true]
          refine ⟨Or.inr rfl, fun hx => ?_,
            fun hx => Bool.noConfusion hx, fun _ _ => rfl⟩
          rcases h1 with h1 | h1
          · exact absurd hx (by simp [h1])
          · rw [hst] at h1; exact Bool.noConfusion h1
      | false =>
          simp only [Bool.false_eq_true, if_false]
          exact ⟨Or.inl rfl, fun hx => Bool.noConfusion hx,
            fun _ => ⟨rfl, rfl⟩,
            fun _ hx => Bool.noConfusion hx⟩
  | upload f =>
      show ModeInvariant ((handleImageUpload s f).1)
      unfold handleImageUpload
      by_cases hb : f.size > MAX_UPLOAD_BYTES
      · rw [if_pos hb]; exact ⟨h1, h2, h3, h4⟩
      · rw [if_neg hb]; exact ⟨h1, h2, h3, h4⟩
  | reset =>
      show ModeInvariant initialSession
      unfold ModeInvariant
      decide

/-! Claim theorems. -/

/-- Claim C1: over all assignments of the three category flags, the mode
selector returns LINEAR for exactly one selected flag, MATRIX for two,
DYNAMIC for three, and LINEAR again for none (the degenerate default). -/
theorem determineLogicMode_count_rule (c : CategoryFlags) :
    (selectedCount c = 1 → determineLogicMode c = .LINEAR)
    ∧ (selectedCount c = 2 → determineLogicMode c = .MATRIX)
    ∧ (selectedCount c = 3 → determineLogicMode c = .DYNAMIC)
    ∧ (selectedCount c = 0 → determineLogicMode c = .LINEAR) := by
  rcases c with ⟨a, s, e⟩
  cases a <;> cases s <;> cases e <;> decide

/-- Witness for C1 at concrete flag assignments for all four counts. -/
theorem determineLogicMode_count_rule_witness :
    determineLogicMode { angle := true, shot := false, expression := false }
        = .LINEAR
    ∧ determineLogicMode { angle := true, shot := true, expression := false }
        = .MATRIX
    ∧ determineLogicMode { angle := true, shot := true, expression := true }
        = .DYNAMIC
    ∧ determineLogicMode noCategories = .LINEAR :=
  ⟨(determineLogicMode_count_rule _).1 (by decide),
   (determineLogicMode_count_rule _).2.1 (by decide),
   (determineLogicMode_count_rule _).2.2.1 (by decide),
   (determineLogicMode_count_rule _).2.2.2 (by decide)⟩

/-- Claim C2, behavior of the code at the failing input: the try-block does
throw the generation-failed Error on a failed status, but the surrounding
per-attempt catch swallows it, so polling a task whose status is failed
from the first attempt on never surfaces that error and instead exhausts
all 60 attempts and ends in the timeout error. -/
theorem pollForVideo_failed_is_swallowed :
    pollTryBlock (.ok failedData) = .error (.generationFailed failedData)
    ∧ pollAttempt (.ok failedData) = .cont
    ∧ pollForVideo (fun _ => .ok failedData) = (.timeoutError, 60) := by
  refine ⟨rfl, rfl, by decide⟩

/-- Claim C4: the poll loop never makes more than 60 attempts; with a mock
endpoint answering processing three times and then success with a URL it
returns that URL after exactly 4 attempts; and whenever every attempt
observes processing or a transport failure, it times out after exactly 60
attempts. -/
theorem pollForVideo_attempt_budget :
    (∀ responses, (pollForVideo responses).2 ≤ 60)
    ∧ pollForVideo mockThreeThenSuccess =
        (.success "https://video.example/result.mp4", 4)
    ∧ (∀ responses,
        (∀ n, responses n = .ok processingData ∨ responses n = .netError) →
        pollForVideo responses = (.timeoutError, 60)) := by
  refine ⟨fun responses => ?_, by decide, fun responses h => ?_⟩
  · have := pollLoop_count_le responses 0 maxAttempts
    simpa [pollForVideo, maxAttempts] using this
  · have hc : ∀ n, pollAttempt (responses n) = .cont := by
      intro n
      rcases h n with hn | hn <;> rw [hn] <;> decide
    have := pollLoop_all_cont responses hc 0 maxAttempts
    simpa [pollForVideo, maxAttempts] using this

/-- Witness for C4 at a concrete always-failing transport. -/
theorem pollForVideo_attempt_budget_witness :
    (∀ n : Nat, (fun _ : Nat => FetchResult.netError) n = .ok processingData
        ∨ (fun _ : Nat => FetchResult.netError) n = .netError)
    ∧ pollForVideo (fun _ => .netError) = (.timeoutError, 60) :=
  ⟨fun _ => Or.inr rfl,
   pollForVideo_attempt_budget.2.2 (fun _ => .netError) (fun _ => Or.inr rfl)⟩

/-- Claim C3, counterexample: the image-modification operation of the
generation client in src/api/geminiApi.ts makes exactly one backend call —
it has no two-identifier fallback loop — and on failure surfaces that first
call's error, not the error of a second attempt as the claimed last-error
rule over the declared two-model list would require. -/
theorem modifyImage_no_fallback :
    modelsToTry.length = 2
    ∧ (modifyImageProxy "token-abc" failingProxyOracle).2 = 1
    ∧ (modifyImageProxy "token-abc" failingProxyOracle).1 =
        Except.error "backend error 0"
    ∧ (modifyImageProxy "token-abc" failingProxyOracle).1 ≠
        Except.error "backend error 1" := by
  refine ⟨rfl, rfl, rfl, ?_⟩
  intro h
  rw [show (modifyImageProxy "token-abc" failingProxyOracle).1 =
      Except.error "backend error 0" from rfl] at h
  injection h with h2
  exact absurd h2 (by decide)

/-- Claim C3, amended: the legacy direct-API preview and final operations
attempt the declared two-model list strictly in order, stop at the first
success, and, when both identifiers fail, surface the last error to the
caller; the image-modification operation instead performs exactly one
proxy-backed backend call whose outcome is surfaced directly. -/
theorem generation_fallback_order (backend : String → Except String String)
    (token : String) (proxy : Nat → ProxyResponse) :
    (∀ u, backend "gemini-3-pro-image-preview" = .ok u →
      generatePreviewModels backend = .ok u
      ∧ generateFinalModels backend = .ok u
      ∧ attemptedModels backend modelsToTry = ["gemini-3-pro-image-preview"])
    ∧ (∀ e u, backend "gemini-3-pro-image-preview" = .error e →
        backend "gemini-2.5-flash-image" = .ok u →
        generatePreviewModels backend = .ok u
        ∧ generateFinalModels backend = .ok u
        ∧ attemptedModels backend modelsToTry =
            ["gemini-3-pro-image-preview", "gemini-2.5-flash-image"])
    ∧ (∀ e0 e1, backend "gemini-3-pro-image-preview" = .error e0 →
        backend "gemini-2.5-flash-image" = .error e1 →
        generatePreviewModels backend = .error e1
        ∧ generateFinalModels backend = .error e1)
    ∧ (modifyImageProxy token proxy).2 = 1
    ∧ (modifyImageProxy token proxy).1 = callProxy token (proxy 0) := by
  refine ⟨fun u h1 => ?_, fun e u h1 h2 => ?_, fun e0 e1 h1 h2 => ?_, rfl, rfl⟩
  · simp [generatePreviewModels, generateFinalModels, attemptedModels,
      tryModels, modelsToTry, h1]
  · simp [generatePreviewModels, generateFinalModels, attemptedModels,
      tryModels, modelsToTry, h1, h2]
  · simp [generatePreviewModels, generateFinalModels, tryModels,
      modelsToTry, h1, h2]

/-- Witness for the amended C3 at concrete backends. -/
theorem generation_fallback_order_witness :
    backendSecondOk "gemini-3-pro-image-preview" = Except.error "first failed"
    ∧ backendSecondOk "gemini-2.5-flash-image" = Except.ok "img-second"
    ∧ backendBothFail "gemini-2.5-flash-image" = Except.error "second failed"
    ∧ generatePreviewModels backendSecondOk = Except.ok "img-second"
    ∧ generatePreviewModels backendBothFail = Except.error "second failed"
    ∧ (modifyImageProxy "tok" failingProxyOracle).2 = 1 :=
  ⟨rfl, rfl, rfl,
   ((generation_fallback_order backendSecondOk "tok" failingProxyOracle).2.1
      "first failed" "img-second" rfl rfl).1,
   ((generation_fallback_order backendBothFail "tok" failingProxyOracle).2.2.1
      "first failed" "second failed" rfl rfl).1,
   (generation_fallback_order backendBothFail "tok"
      failingProxyOracle).2.2.2.1⟩

/-- Claim C5: every reachable session state satisfies the mode-exclusivity
invariant; enabling smart layout clears the category flags, disables story
mode and sets CINEMATIC; enabling story mode clears the category flags,
disables smart layout and sets STORY; and disabling either special mode
restores the mode determined by the category flags. -/
theorem mode_exclusivity :
    (∀ s, ReachableState s → ModeInvariant s)
    ∧ (∀ s : SessionState, s.smartLayoutEnabled = false →
        (toggleSmartLayout s).smartLayoutEnabled = true
        ∧ (toggleSmartLayout s).storyModeEnabled = false
        ∧ (toggleSmartLayout s).selectedCategories = noCategories
        ∧ (toggleSmartLayout s).logicMode = .CINEMATIC)
    ∧ (∀ s : SessionState, s.storyModeEnabled = false →
        (toggleStoryMode s).storyModeEnabled = true
        ∧ (toggleStoryMode s).smartLayoutEnabled = false
        ∧ (toggleStoryMode s).selectedCategories = noCategories
        ∧ (toggleStoryMode s).logicMode = .STORY)
    ∧ (∀ s : SessionState, s.smartLayoutEnabled = true →
        (toggleSmartLayout s).smartLayoutEnabled = false
        ∧ (toggleSmartLayout s).logicMode =
            determineLogicMode s.selectedCategories)
    ∧ (∀ s : SessionState, s.storyModeEnabled = true →
        (toggleStoryMode s).storyModeEnabled = false
        ∧ (toggleStoryMode s).logicMode =
            determineLogicMode s.selectedCategories) := by
  refine ⟨fun s hr => ?_, fun s hs => ?_, fun s hs => ?_,
    fun s hs => ?_, fun s hs => ?_⟩
  · induction hr with
    | init => unfold ModeInvariant; decide
    | step t a _ ih => exact modeInvariant_step t a ih
  · unfold toggleSmartLayout
    rw [hs]
    exact ⟨rfl, rfl, rfl, rfl⟩
  · unfold toggleStoryMode
    rw [hs]
    exact ⟨rfl, rfl, rfl, rfl⟩
  · unfold toggleSmartLayout
    rw [hs]
    exact ⟨rfl, rfl⟩
  · unfold toggleStoryMode
    rw [hs]
    exact ⟨rfl, rfl⟩

/-- Witness for C5 at the initial state and a concrete enable action. -/
theorem mode_exclusivity_witness :
    ModeInvariant initialSession
    ∧ initialSession.smartLayoutEnabled = false
    ∧ (toggleSmartLayout initialSession).logicMode = LogicMode.CINEMATIC
    ∧ (toggleSmartLayout initialSession).storyModeEnabled = false :=
  ⟨mode_exclusivity.1 initialSession ReachableState.init, rfl,
   (mode_exclusivity.2.1 initialSession rfl).2.2.2,
   (mode_exclusivity.2.1 initialSession rfl).2.1⟩

/-- Claim C10: the pure mode selector is total over the eight flag
assignments with a result always among LINEAR, MATRIX and DYNAMIC, and a
controller step writes CINEMATIC or STORY into the state only via the
corresponding special-mode toggle (or by leaving an already-special state
untouched). -/
theorem determineLogicMode_range :
    (∀ c, determineLogicMode c = .LINEAR ∨ determineLogicMode c = .MATRIX ∨
        determineLogicMode c = .DYNAMIC)
    ∧ (∀ (s : SessionState) (a : UserAction),
        (sessionStep s a).logicMode = .CINEMATIC →
        s.logicMode = .CINEMATIC ∨ a = .smartLayout)
    ∧ (∀ (s : SessionState) (a : UserAction),
        (sessionStep s a).logicMode = .STORY →
        s.logicMode = .STORY ∨ a = .storyMode) := by
  refine ⟨determineLogicMode_mem, fun s a h => ?_, fun s a h => ?_⟩
  · cases a with
    | toggleCat c =>
        left
        simp only [sessionStep] at h
        unfold toggleCategory at h
        by_cases hg : (s.smartLayoutEnabled || s.storyModeEnabled) = true
        · rw [if_pos hg] at h; exact h
        · rw [if_neg hg] at h
          change determineLogicMode (flipCategory s.selectedCategories c)
            = LogicMode.CINEMATIC at h
          rcases determineLogicMode_mem (flipCategory s.selectedCategories c)
            with hm | hm | hm <;> rw [hm] at h <;> exact LogicMode.noConfusion h
    | smartLayout => exact Or.inr rfl
    | storyMode =>
        exfalso
        simp only [sessionStep] at h
        unfold toggleStoryMode at h
        by_cases hg : s.storyModeEnabled = true
        · rw [if_pos hg] at h
          change determineLogicMode s.selectedCategories
            = LogicMode.CINEMATIC at h
          rcases determineLogicMode_mem s.selectedCategories
            with hm | hm | hm <;> rw [hm] at h <;> exact LogicMode.noConfusion h
        · rw [if_neg hg] at h
          exact LogicMode.noConfusion h
    | upload f =>
        left
        simp only [sessionStep] at h
        unfold handleImageUpload at h
        by_cases hb : f.size > MAX_UPLOAD_BYTES
        · rw [if_pos hb] at h; exact h
        · rw [if_neg hb] at h; exact h
    | reset =>
        exfalso
        simp only [sessionStep] at h
        exact LogicMode.noConfusion h
  · cases a with
    | toggleCat c =>
        left
        simp only [sessionStep] at h
        unfold toggleCategory at h
        by_cases hg : (s.smartLayoutEnabled || s.storyModeEnabled) = true
        · rw [if_pos hg] at h; exact h
        · rw [if_neg hg] at h
          change determineLogicMode (flipCategory s.selectedCategories c)
            = LogicMode.STORY at h
          rcases determineLogicMode_mem (flipCategory s.selectedCategories c)
            with hm | hm | hm <;> rw [hm] at h <;> exact LogicMode.noConfusion h
    | smartLayout =>
        exfalso
        simp only [sessionStep] at h
        unfold toggleSmartLayout at h
        by_cases hg : s.smartLayoutEnabled = true
        · rw [if_pos hg] at h
          change determineLogicMode s.selectedCategories
            = LogicMode.STORY at h
          rcases determineLogicMode_mem s.selectedCategories
            with hm | hm | hm <;> rw [hm] at h <;> exact LogicMode.noConfusion h
        · rw [if_neg hg] at h
          exact LogicMode.noConfusion h
    | storyMode => exact Or.inr rfl
    | upload f =>
        left
        simp only [sessionStep] at h
        unfold handleImageUpload at h
        by_cases hb : f.size > MAX_UPLOAD_BYTES
        · rw [if_pos hb] at h; exact h
        · rw [if_neg hb] at h; exact h
    | reset =>
        exfalso
        simp only [sessionStep] at h
        exact LogicMode.noConfusion h

/-- Witness for C10 at the initial state and the two special toggles. -/
theorem determineLogicMode_range_witness :
    (sessionStep initialSession .smartLayout).logicMode = LogicMode.CINEMATIC
    ∧ (initialSession.logicMode = LogicMode.CINEMATIC ∨
        UserAction.smartLayout = UserAction.smartLayout)
    ∧ (sessionStep initialSession .storyMode).logicMode = LogicMode.STORY
    ∧ (initialSession.logicMode = LogicMode.STORY ∨
        UserAction.storyMode = UserAction.storyMode) :=
  ⟨by decide,
   determineLogicMode_range.2.1 initialSession .smartLayout (by decide),
   by decide,
   determineLogicMode_range.2.2 initialSession .storyMode (by decide)⟩

/-- Rounding a rational bounded by a natural stays bounded by it. -/
theorem round_toNat_le (x : ℚ) (n : Nat) (hx : x ≤ (n : ℚ)) :
    (round x).toNat ≤ n := by
  have hfl : ⌊(n : ℚ) + 1/2⌋ = (n : ℤ) := by
    rw [Int.floor_eq_iff]
    constructor
    · push_cast; linarith
    · push_cast; linarith
  have h1 : round x ≤ (n : ℤ) := by
    rw [round_eq]
    calc ⌊x + 1/2⌋ ≤ ⌊(n : ℚ) + 1/2⌋ := by
          apply Int.floor_le_floor; linarith
      _ = (n : ℤ) := hfl
  exact Int.toNat_le.mpr h1

/-- A resized component never exceeds the 1024 ceiling. -/
theorem resize_component_le (v w h : Nat) (hm : 1024 < max w h)
    (hvm : v ≤ max w h) :
    (round ((v : ℚ) *
      ((MAX_IMAGE_DIMENSION : ℚ) / max (w : ℚ) (h : ℚ)))).toNat ≤ 1024 := by
  apply round_toNat_le
  have hcast : max (w : ℚ) (h : ℚ) = ((max w h : ℕ) : ℚ) := by
    push_cast
    rfl
  set m := max w h with hm1
  have hm0 : (0 : ℚ) < ((m : ℕ) : ℚ) := by
    have : 0 < m := by omega
    exact_mod_cast this
  have hv : (v : ℚ) ≤ ((m : ℕ) : ℚ) := by exact_mod_cast hvm
  have hMd : (MAX_IMAGE_DIMENSION : ℚ) = 1024 := by
    norm_num [MAX_IMAGE_DIMENSION]
  rw [hcast, hMd, mul_div_assoc', div_le_iff₀ hm0]
  push_cast
  push_cast at hv
  nlinarith

/-- Both resized dimensions lie within the 1024 ceiling. -/
theorem resizeDims_le_1024 (w h : Nat) :
    (resizeDims w h).1 ≤ 1024 ∧ (resizeDims w h).2 ≤ 1024 := by
  by_cases hc : MAX_IMAGE_DIMENSION < w ∨ MAX_IMAGE_DIMENSION < h
  · have hmax : 1024 < max w h := by
      unfold MAX_IMAGE_DIMENSION at hc
      omega
    simp only [resizeDims]
    rw [if_pos hc]
    exact ⟨resize_component_le w w h hmax (le_max_left w h),
      resize_component_le h w h hmax (le_max_right w h)⟩
  · simp only [resizeDims]
    rw [if_neg hc]
    unfold MAX_IMAGE_DIMENSION at hc
    constructor <;> omega

/-- resizeDims is the identity on dimensions already within the ceiling. -/
theorem resizeDims_static (a b : Nat) (ha : a ≤ 1024) (hb : b ≤ 1024) :
    resizeDims a b = (a, b) := by
  have hc : ¬ (MAX_IMAGE_DIMENSION < a ∨ MAX_IMAGE_DIMENSION < b) := by
    unfold MAX_IMAGE_DIMENSION
    omega
  simp only [resizeDims]
  rw [if_neg hc]

/-- The quality loop, given fuel matching the distance to the floor in
0.1 steps, exits with a final quality between the floor and the start and
with the loop guard false. -/
theorem qualityLoop_exit (encodeSize : ℚ → Nat) (f : Nat) :
    ∀ (q : ℚ) (size : Nat), q = QUALITY_FLOOR + (f : ℚ) / 10 →
    QUALITY_FLOOR ≤ (qualityLoop encodeSize q size f).1
    ∧ (qualityLoop encodeSize q size f).1 ≤ q
    ∧ ¬ qualityGuard (qualityLoop encodeSize q size f).2
        (qualityLoop encodeSize q size f).1 := by
  induction f with
  | zero =>
      intro q size hq
      norm_num at hq
      subst hq
      simp only [qualityLoop]
      refine ⟨le_refl _, le_refl _, fun hg => absurd hg.2 (lt_irrefl _)⟩
  | succ f ih =>
      intro q size hq
      simp only [qualityLoop]
      by_cases hg : qualityGuard size q
      · rw [if_pos hg]
        have hq2 : q - 1/10 = QUALITY_FLOOR + (f : ℚ) / 10 := by
          rw [hq]; push_cast; ring
        obtain ⟨a, b, c⟩ := ih (q - 1/10) (encodeSize (q - 1/10)) hq2
        exact ⟨a, by linarith, c⟩
      · rw [if_neg hg]
        refine ⟨?_, le_refl _, hg⟩
        rw [hq]
        have hfz : (0 : ℚ) ≤ ((f : ℚ) + 1) / 10 := by positivity
        push_cast
        linarith

/-- Claim C7: the resize step of compressImage never increases the longer
dimension, never produces a dimension above the configured 1024 maximum,
and is idempotent on dimensions; the quality-reduction loop always exits
with its guard false and a final quality between the 0.3 floor and the
0.7 starting quality, decreasing in fixed 0.1 steps. -/
theorem compressImage_dims (w h : Nat) (encodeSize : ℚ → Nat) :
    max (resizeDims w h).1 (resizeDims w h).2 ≤ max w h
    ∧ (resizeDims w h).1 ≤ MAX_IMAGE_DIMENSION
    ∧ (resizeDims w h).2 ≤ MAX_IMAGE_DIMENSION
    ∧ resizeDims (resizeDims w h).1 (resizeDims w h).2 = resizeDims w h
    ∧ QUALITY_FLOOR ≤ (compressQuality encodeSize).1
    ∧ (compressQuality encodeSize).1 ≤ JPEG_QUALITY
    ∧ ¬ qualityGuard (compressQuality encodeSize).2
        (compressQuality encodeSize).1 := by
  obtain ⟨hb1, hb2⟩ := resizeDims_le_1024 w h
  have hmax : max (resizeDims w h).1 (resizeDims w h).2 ≤ max w h := by
    by_cases hc : MAX_IMAGE_DIMENSION < w ∨ MAX_IMAGE_DIMENSION < h
    · have : 1024 < max w h := by
        unfold MAX_IMAGE_DIMENSION at hc
        omega
      omega
    · have he : resizeDims w h = (w, h) := by
        simp only [resizeDims]
        rw [if_neg hc]
      rw [he]
  have hidem : resizeDims (resizeDims w h).1 (resizeDims w h).2
      = resizeDims w h := by
    rw [resizeDims_static _ _ hb1 hb2]
  have hq := qualityLoop_exit encodeSize 4 JPEG_QUALITY
    (encodeSize JPEG_QUALITY) (by norm_num [JPEG_QUALITY, QUALITY_FLOOR])
  have hle : MAX_IMAGE_DIMENSION = 1024 := rfl
  refine ⟨hmax, by omega, by omega, hidem, hq.1, ?_, hq.2.2⟩
  exact hq.2.1

/-- Claim C8: an upload above the 10 MB ceiling is rejected with the
user-facing message and the session state is returned exactly unchanged; an
upload within the ceiling is accepted with no message, storing the file,
its preview and the detected aspect label while leaving every other
modelled field untouched. -/
theorem handleImageUpload_guard (s : SessionState) (f : UploadFile) :
    (f.size > MAX_UPLOAD_BYTES →
      handleImageUpload s f = (s, some "Image too large (>10MB)"))
    ∧ (f.size ≤ MAX_UPLOAD_BYTES →
      (handleImageUpload s f).2 = none
      ∧ (handleImageUpload s f).1.referenceImage = some f
      ∧ (handleImageUpload s f).1.referenceImagePreview = some f.dataUrl
      ∧ (handleImageUpload s f).1.gridAspectLabel =
          detectAspectLabel f.naturalWidth f.naturalHeight
      ∧ (handleImageUpload s f).1.selectedCategories = s.selectedCategories
      ∧ (handleImageUpload s f).1.logicMode = s.logicMode
      ∧ (handleImageUpload s f).1.smartLayoutEnabled = s.smartLayoutEnabled
      ∧ (handleImageUpload s f).1.storyModeEnabled = s.storyModeEnabled) := by
  constructor
  · intro hb
    unfold handleImageUpload
    rw [if_pos hb]
  · intro hb
    have hb2 : ¬ f.size > MAX_UPLOAD_BYTES := by omega
    unfold handleImageUpload
    rw [if_neg hb2]
    exact ⟨rfl, rfl, rfl, rfl, rfl, rfl, rfl, rfl⟩

/-- Witness for C8 at a concrete oversized file and a concrete small one. -/
theorem handleImageUpload_guard_witness :
    bigFile.size > MAX_UPLOAD_BYTES
    ∧ handleImageUpload initialSession bigFile =
        (initialSession, some "Image too large (>10MB)")
    ∧ smallFile.size ≤ MAX_UPLOAD_BYTES
    ∧ (handleImageUpload initialSession smallFile).2 = none
    ∧ (handleImageUpload initialSession smallFile).1.referenceImage =
        some smallFile :=
  ⟨by decide,
   (handleImageUpload_guard initialSession bigFile).1 (by decide),
   by decide,
   ((handleImageUpload_guard initialSession smallFile).2 (by decide)).1,
   ((handleImageUpload_guard initialSession smallFile).2 (by decide)).2.1⟩

/-- Claim C9: aspect detection maps 1920 by 1080 to 16:9, 1080 by 1920 to
9:16, 1000 by 1000 to 1:1 and 1000 by 750 to 4:3, and whenever the
width/height quotient is outside the 0.05 tolerance of every common label
it reports the gcd-reduced integer pair. -/
theorem detectAspectLabel_cases :
    detectAspectLabel 1920 1080 = "16:9"
    ∧ detectAspectLabel 1080 1920 = "9:16"
    ∧ detectAspectLabel 1000 1000 = "1:1"
    ∧ detectAspectLabel 1000 750 = "4:3"
    ∧ (∀ w h : Nat,
        ¬ |(w : ℚ) / (h : ℚ) - 16/9| < 1/20 →
        ¬ |(w : ℚ) / (h : ℚ) - 9/16| < 1/20 →
        ¬ |(w : ℚ) / (h : ℚ) - 4/3| < 1/20 →
        ¬ |(w : ℚ) / (h : ℚ) - 3/4| < 1/20 →
        ¬ |(w : ℚ) / (h : ℚ) - 1| < 1/20 →
        detectAspectLabel w h =
          toString (w / Nat.gcd w h) ++ ":" ++
            toString (h / Nat.gcd w h)) := by
  refine ⟨?_, ?_, ?_, ?_, ?_⟩
  · simp only [detectAspectLabel, abs_sub_lt_iff]
    norm_num
  · simp only [detectAspectLabel, abs_sub_lt_iff]
    norm_num
  · simp only [detectAspectLabel, abs_sub_lt_iff]
    norm_num
  · simp only [detectAspectLabel, abs_sub_lt_iff]
    norm_num
  · intro w h h1 h2 h3 h4 h5
    simp only [detectAspectLabel]
    rw [if_neg h1, if_neg h2, if_neg h3, if_neg h4, if_neg h5]

/-- Witness for C9's gcd branch at the uncommon 5 by 1 shape. -/
theorem detectAspectLabel_cases_witness :
    (¬ |((5 : Nat) : ℚ) / ((1 : Nat) : ℚ) - 16/9| < 1/20)
    ∧ (¬ |((5 : Nat) : ℚ) / ((1 : Nat) : ℚ) - 1| < 1/20)
    ∧ detectAspectLabel 5 1 = "5:1" :=
  ⟨by rw [abs_sub_lt_iff]; push_cast; norm_num, by rw [abs_sub_lt_iff]; push_cast; norm_num, by
    have hx := detectAspectLabel_cases.2.2.2.2 5 1
      (by rw [abs_sub_lt_iff]; push_cast; norm_num) (by rw [abs_sub_lt_iff]; push_cast; norm_num)
      (by rw [abs_sub_lt_iff]; push_cast; norm_num) (by rw [abs_sub_lt_iff]; push_cast; norm_num)
      (by rw [abs_sub_lt_iff]; push_cast; norm_num)
    rw [hx]
    decide⟩

/-- Two half-open intervals of consecutive multiples of the same positive
step containing the same point have the same index. -/
theorem interval_index_eq (a b : Nat) (u x : ℚ)
    (ha1 : (a : ℚ) * u ≤ x) (ha2 : x < ((a : ℚ) + 1) * u)
    (hb1 : (b : ℚ) * u ≤ x) (hb2 : x < ((b : ℚ) + 1) * u) : a = b := by
  have hu : 0 < u := by nlinarith
  by_contra hne
  rcases Nat.lt_or_ge a b with hab | hab
  · have hab1 : a + 1 ≤ b := hab
    have hab2 : (a : ℚ) + 1 ≤ (b : ℚ) := by exact_mod_cast hab1
    have hstep : ((a : ℚ) + 1) * u ≤ (b : ℚ) * u :=
      mul_le_mul_of_nonneg_right hab2 (le_of_lt hu)
    linarith
  · have hba : b + 1 ≤ a := by omega
    have hba2 : (b : ℚ) + 1 ≤ (a : ℚ) := by exact_mod_cast hba
    have hstep : ((b : ℚ) + 1) * u ≤ (a : ℚ) * u :=
      mul_le_mul_of_nonneg_right hba2 (le_of_lt hu)
    linarith

/-- The nine cell rectangles are pairwise disjoint: a pixel inside two cell
rectangles of the same grid forces the indices to agree. -/
theorem inCell_unique (g : Img) (i j x y : Nat)
    (hi : inCell g i x y = true) (hj : inCell g j x y = true) : i = j := by
  simp only [inCell, Bool.and_eq_true, decide_eq_true_eq] at hi hj
  obtain ⟨⟨⟨hi1, hi2⟩, hi3⟩, hi4⟩ := hi
  obtain ⟨⟨⟨hj1, hj2⟩, hj3⟩, hj4⟩ := hj
  have hcol : cellCol i = cellCol j :=
    interval_index_eq _ _ _ _ hi1 hi2 hj1 hj2
  have hrow : cellRow i = cellRow j :=
    interval_index_eq _ _ _ _ hi3 hi4 hj3 hj4
  simp only [cellCol, cellRow] at hcol hrow
  omega

/-- Claim C6: compositing a patch into one cell's sub-rectangle changes no
pixel lying in any of the other eight cells, in particular when the patch
is the crop of that same cell taken from the same grid. -/
theorem updateGrid_preserves_other_cells (grid patch : Img)
    (cellIndex j x y : Nat) (_hci : cellIndex < 9) (_hj : j < 9)
    (hne : j ≠ cellIndex) (hin : inCell grid j x y = true) :
    (updateGridWithImage grid cellIndex patch).pix x y = grid.pix x y
    ∧ (updateGridWithImage grid cellIndex
        (cropCellFromGrid grid cellIndex)).pix x y = grid.pix x y := by
  have hnot : inCell grid cellIndex x y = false := by
    cases hcc : inCell grid cellIndex x y with
    | false => rfl
    | true => exact absurd (inCell_unique grid j cellIndex x y hin hcc) hne
  constructor <;> simp [updateGridWithImage, hnot]

/-- Witness for C6 on a concrete 6 by 6 grid, compositing into cell 4 and
checking a pixel of cell 0. -/
theorem updateGrid_preserves_other_cells_witness :
    (4 : Nat) < 9 ∧ (0 : Nat) < 9 ∧ (0 : Nat) ≠ 4
    ∧ inCell gridSix 0 0 0 = true
    ∧ ((updateGridWithImage gridSix 4 patchTwo).pix 0 0 = gridSix.pix 0 0
      ∧ (updateGridWithImage gridSix 4
          (cropCellFromGrid gridSix 4)).pix 0 0 = gridSix.pix 0 0) := by
  have hin : inCell gridSix 0 0 0 = true := by
    simp only [inCell, Bool.and_eq_true, decide_eq_true_eq, cellW, cellH,
      cellCol, cellRow, gridSix]
    norm_num
  exact ⟨by norm_num, by norm_num, by norm_num, hin,
    updateGrid_preserves_other_cells gridSix patchTwo 4 0 0 0 (by norm_num)
      (by norm_num) (by norm_num) hin⟩
